import Mathlib

/-!
Shallow embedding of `src/metrics.go` from ouzi-dev/kinesis-producer
(package `producer`): a Prometheus metric catalog, a collector factory
(`newMetric`), a registry-binding loop and a typed handle assembler
(`getMetrics`).

Modelling choices:
* Go `float64` bucket boundaries become exact rationals (`ℚ`); every
  literal in the source is a short decimal, represented exactly.
* A Prometheus collector is modelled by the data its constructor
  receives (`prometheus.NewCounterVec` / `prometheus.NewHistogramVec`):
  subsystem, name, help, label names, and — for histograms — the
  `Buckets` field of the `HistogramOpts` (empty means "not set", in
  which case the Prometheus runtime applies its default buckets).
* A `nil prometheus.Collector` (the value `newMetric` returns for an
  unknown `Type`, since its `switch` has no default branch) is `none`.
* `prometheus.Register` is modelled by its observable contract: the
  default registry is a list of registered collectors keyed by fully
  qualified name (`subsystem_name`); registering a duplicate name
  returns an `AlreadyRegisteredError` and leaves the registry unchanged.
* The injected `Logger` is modelled by accumulating the arguments of
  each `Error(message, cause)` call in a list.
-/

/-- Embeds `prometheus.Collector` values as produced by this package:
the constructor arguments of `prometheus.NewCounterVec` and
`prometheus.NewHistogramVec`. For a histogram, `buckets` is the
`Buckets` field of the `HistogramOpts` handed to the constructor
(`[]` = field left unset / nil). -/
inductive Collector where
  | counterVec (subsystem name help : String) (labels : List String)
  | histogramVec (subsystem name help : String) (buckets : List ℚ) (labels : List String)
deriving DecidableEq, Repr

/-- Embeds `const systemName = "go_kinesis_producer"` (metrics.go line 9). -/
def systemName : String := "go_kinesis_producer"

/-- Embeds `var timeMillisecondBuckets = []float64{.01, .1, .25, .5, 1, 2.5, 5, 10, 100, 1000, 10000, 60000}`. -/
def timeMillisecondBuckets : List ℚ :=
  [0.01, 0.1, 0.25, 0.5, 1, 2.5, 5, 10, 100, 1000, 10000, 60000]

/-- Embeds `var sizeByteBuckets = []float64{1, 16, 64, 256, 512, 1024, 16384, 65536, 262144, 1048576, 4194304}`. -/
def sizeByteBuckets : List ℚ :=
  [1, 16, 64, 256, 512, 1024, 16384, 65536, 262144, 1048576, 4194304]

/-- Embeds the `metric` struct (metrics.go lines 176–184). `Type` is a
Lean keyword, so the field is written `«Type»`. The Go zero values of
`MetricCollector` and `Buckets` (nil) are `none` and `[]`. -/
structure metric where
  MetricCollector : Option Collector := none
  ID : String
  Name : String
  Description : String
  «Type» : String
  Args : List String
  Buckets : List ℚ := []
deriving DecidableEq, Repr

/-- Embeds `newMetric` (metrics.go lines 187–211). The `switch` on
`m.Type` has no default branch, so an unknown type leaves the local
`metric` variable at its zero value (a nil `prometheus.Collector`),
modelled as `none`. In the histogram branch `opts.Buckets` starts nil
and is set (by copying, see the store model below) only when
`len(m.Buckets) > 0`. -/
def newMetric (m : metric) (subsystem : String) : Option Collector :=
  match m.«Type» with
  | "counter_vec" =>
      some (Collector.counterVec subsystem m.Name m.Description m.Args)
  | "histogram_vec" =>
      let optsBuckets : List ℚ := if 0 < m.Buckets.length then m.Buckets else []
      some (Collector.histogramVec subsystem m.Name m.Description optsBuckets m.Args)
  | _ => none

/-- Fully qualified metric name, as `prometheus.BuildFQName("", subsystem, name)`
produces it for registration bookkeeping: `subsystem_name`. -/
def fqName : Collector → String
  | Collector.counterVec s n _ _ => s ++ "_" ++ n
  | Collector.histogramVec s n _ _ _ => s ++ "_" ++ n

/-- Subsystem the collector was constructed with. -/
def collectorSubsystem : Collector → String
  | Collector.counterVec s _ _ _ => s
  | Collector.histogramVec s _ _ _ _ => s

/-- Constructor-time `Buckets` of a histogram collector (`[]` for a counter). -/
def collectorBuckets : Collector → List ℚ
  | Collector.counterVec _ _ _ _ => []
  | Collector.histogramVec _ _ _ b _ => b

/-- The Prometheus runtime's default histogram buckets
(`prometheus.DefBuckets`), applied by the collector runtime when
`HistogramOpts.Buckets` is left unset. External-collaborator behaviour,
modelled from the Prometheus client library contract the spec refers to. -/
def prometheusDefBuckets : List ℚ :=
  [0.005, 0.01, 0.025, 0.05, 0.1, 0.25, 0.5, 1, 2.5, 5, 10]

/-- Effective bucket boundaries of a constructed histogram collector:
the declared `Buckets` when set, otherwise the runtime default. -/
def effectiveBuckets (c : Collector) : List ℚ :=
  if (collectorBuckets c).isEmpty then prometheusDefBuckets else collectorBuckets c

/-- Embeds the result of `prometheus.Register` (external collaborator):
the default registry keyed by fully qualified name. A duplicate name
yields an `AlreadyRegisteredError` (its `Error()` text) and leaves the
registry unchanged; otherwise the collector is added. -/
def registerCollector (r : List Collector) (c : Collector) :
    List Collector × Option String :=
  if r.any (fun c0 => fqName c0 = fqName c) then
    (r, some "duplicate metrics collector registration attempted")
  else (r ++ [c], none)

/-- Embeds the `prometheusMetrics` struct (metrics.go lines 14–26); every
field is a collector reference, nil (`none`) until assigned. -/
structure prometheusMetrics where
  userRecordsPutCnt : Option Collector := none
  userRecordsDataPutSz : Option Collector := none
  kinesisRecordsPutCnt : Option Collector := none
  kinesisRecordsDataPutSz : Option Collector := none
  errorsByCodeCnt : Option Collector := none
  allErrorsCnt : Option Collector := none
  retriesPerRecordSum : Option Collector := none
  bufferingTimeDur : Option Collector := none
  requestTimeDur : Option Collector := none
  userRecordsPerKinesisRecordSum : Option Collector := none
  kinesisRecordsPerPutRecordsRequestSum : Option Collector := none
deriving DecidableEq, Repr

/-- Embeds the catalog construction in `getMetrics` (metrics.go lines
29–135): each call builds the eleven descriptors afresh; the argument
makes each construction a separate call, as in the Go source where the
descriptor literals are evaluated on every invocation of `getMetrics`. -/
def mkCatalog (_ : Unit) : List metric :=
  [ { ID := "userRecordsPutCnt"
    , Name := "user_records_put_total"
    , Description := "Count of how many logical user records were received by the KPL core for put operations."
    , Args := ["stream"]
    , «Type» := "counter_vec" }
  , { ID := "userRecordsDataPutSz"
    , Name := "user_records_data_put_bytes"
    , Description := "Bytes in the logical user records were received by the KPL core for put operations."
    , Args := ["stream"]
    , «Type» := "histogram_vec"
    , Buckets := sizeByteBuckets }
  , { ID := "kinesisRecordsPutCnt"
    , Name := "kinesis_records_put_total"
    , Description := "Count of how many Kinesis Data Streams records were put successfully (each Kinesis Data Streams record can contain multiple user records)."
    , Args := ["stream", "shard"]
    , «Type» := "counter_vec" }
  , { ID := "kinesisRecordsDataPutSz"
    , Name := "kinesis_records_data_put_bytes"
    , Description := "Bytes in the Kinesis Data Streams records."
    , Args := ["stream"]
    , «Type» := "histogram_vec"
    , Buckets := sizeByteBuckets }
  , { ID := "errorsByCodeCnt"
    , Name := "errors_by_code_total"
    , Description := "Count of each type of error code."
    , Args := ["stream", "code"]
    , «Type» := "counter_vec" }
  , { ID := "allErrorsCnt"
    , Name := "errors_total"
    , Description := "This is triggered by the same errors as Errors by Code, but does not distinguish between types."
    , Args := ["stream"]
    , «Type» := "counter_vec" }
  , { ID := "retriesPerRecordSum"
    , Name := "retries_per_record"
    , Description := "Number of retries performed per kinesis record. Zero is emitted for records that succeed in one try."
    , Args := ["stream"]
    , «Type» := "histogram_vec" }
  , { ID := "bufferingTimeDur"
    , Name := "buffering_time_milliseconds"
    , Description := "The time between a user record arriving at the KPL and leaving for the backend."
    , Args := ["stream"]
    , «Type» := "histogram_vec"
    , Buckets := timeMillisecondBuckets }
  , { ID := "requestTimeDur"
    , Name := "request_time_milliseconds"
    , Description := "The time it takes to perform PutRecordsRequests."
    , Args := ["stream"]
    , «Type» := "histogram_vec"
    , Buckets := timeMillisecondBuckets }
  , { ID := "userRecordsPerKinesisRecordSum"
    , Name := "user_records_per_kinesis_record"
    , Description := "The number of logical user records aggregated into a single Kinesis Data Streams record."
    , Args := ["stream"]
    , «Type» := "histogram_vec"
    , Buckets := sizeByteBuckets }
  , { ID := "kinesisRecordsPerPutRecordsRequestSum"
    , Name := "kinesis_records_per_put_records_request"
    , Description := "The number of Kinesis Data Streams records aggregated into a single PutRecordsRequest."
    , Args := ["stream"]
    , «Type» := "histogram_vec"
    , Buckets := sizeByteBuckets } ]

/-- The `metricList` slice of `getMetrics` (metrics.go lines 123–135). -/
def metricList : List metric := mkCatalog ()

/-- State threaded through the registration loop of `getMetrics`: the
handle under assembly, the process-wide registry, and the sequence of
`logger.Error(message, cause)` calls made so far. -/
structure GState where
  p : prometheusMetrics
  registry : List Collector
  logs : List (String × String)
deriving Repr

/-- Embeds the `switch metricDef` field assignment (metrics.go lines
145–168). The Go switch compares `metricDef` by pointer identity against
the eleven locals; since the loop ranges over exactly those locals and
their `ID`s are pairwise distinct, dispatch by `ID` is the same function. -/
def assignField (p : prometheusMetrics) (d : metric) (mc : Option Collector) :
    prometheusMetrics :=
  match d.ID with
  | "userRecordsPutCnt" => { p with userRecordsPutCnt := mc }
  | "userRecordsDataPutSz" => { p with userRecordsDataPutSz := mc }
  | "kinesisRecordsPutCnt" => { p with kinesisRecordsPutCnt := mc }
  | "kinesisRecordsDataPutSz" => { p with kinesisRecordsDataPutSz := mc }
  | "errorsByCodeCnt" => { p with errorsByCodeCnt := mc }
  | "allErrorsCnt" => { p with allErrorsCnt := mc }
  | "retriesPerRecordSum" => { p with retriesPerRecordSum := mc }
  | "bufferingTimeDur" => { p with bufferingTimeDur := mc }
  | "requestTimeDur" => { p with requestTimeDur := mc }
  | "userRecordsPerKinesisRecordSum" => { p with userRecordsPerKinesisRecordSum := mc }
  | "kinesisRecordsPerPutRecordsRequestSum" => { p with kinesisRecordsPerPutRecordsRequestSum := mc }
  | _ => p

/-- One iteration of the `for _, metricDef := range metricList` loop
(metrics.go lines 139–171): construct the collector with the fixed
`systemName` subsystem, attempt registration, log
`"<Name> could not be registered in Prometheus"` with the cause on
failure, and assign the handle field unconditionally. -/
def loopStep (st : GState) (d : metric) : GState :=
  let mc := newMetric d systemName
  let rr := match mc with
    | some c => registerCollector st.registry c
    | none => (st.registry, none)
  { p := assignField st.p d mc
  , registry := rr.1
  , logs := st.logs ++ (match rr.2 with
      | some e => [(d.Name ++ " could not be registered in Prometheus", e)]
      | none => []) }

/-- Embeds `getMetrics` (metrics.go lines 28–174), made explicit in the
process-wide registry it mutates: starting from registry state
`registry0` with no logger calls yet, run the registration loop over the
freshly constructed catalog and return the assembled handle, the final
registry and the logger calls. -/
def getMetrics (registry0 : List Collector) : GState :=
  (mkCatalog ()).foldl loopStep { p := {}, registry := registry0, logs := [] }

/-- Look a descriptor up in the catalog by its `ID`. -/
def findByID (i : String) : Option metric :=
  metricList.find? (fun d => d.ID == i)

/-- C5: the two canonical bucket constants equal exactly the listed
sequences, in order: the time-bucket constant is
0.01, 0.1, 0.25, 0.5, 1, 2.5, 5, 10, 100, 1000, 10000, 60000 (written
below as exact rationals) and the size-bucket constant is
1, 16, 64, 256, 512, 1024, 16384, 65536, 262144, 1048576, 4194304. -/
theorem bucket_constants_exact :
    timeMillisecondBuckets =
      [1/100, 1/10, 1/4, 1/2, 1, 5/2, 5, 10, 100, 1000, 10000, 60000] ∧
    sizeByteBuckets =
      [1, 16, 64, 256, 512, 1024, 16384, 65536, 262144, 1048576, 4194304] := by
  constructor <;> norm_num [timeMillisecondBuckets, sizeByteBuckets, List.cons.injEq]

/-- C6: every descriptor in the catalog carries exactly the kind, the
ordered label names and the bucket set of the catalog table; in
particular `kinesisRecordsPutCnt` is a counter with labels
[stream, shard], `errorsByCodeCnt` is a counter with labels
[stream, code], `retriesPerRecordSum` is a distribution with labels
[stream] and no declared buckets, and `bufferingTimeDur` and
`requestTimeDur` are distributions with labels [stream] using the
time-in-milliseconds buckets. -/
theorem catalog_descriptor_table :
    metricList.map (fun d => (d.ID, d.«Type», d.Args, d.Buckets)) =
      [ ("userRecordsPutCnt", "counter_vec", ["stream"], []),
        ("userRecordsDataPutSz", "histogram_vec", ["stream"], sizeByteBuckets),
        ("kinesisRecordsPutCnt", "counter_vec", ["stream", "shard"], []),
        ("kinesisRecordsDataPutSz", "histogram_vec", ["stream"], sizeByteBuckets),
        ("errorsByCodeCnt", "counter_vec", ["stream", "code"], []),
        ("allErrorsCnt", "counter_vec", ["stream"], []),
        ("retriesPerRecordSum", "histogram_vec", ["stream"], []),
        ("bufferingTimeDur", "histogram_vec", ["stream"], timeMillisecondBuckets),
        ("requestTimeDur", "histogram_vec", ["stream"], timeMillisecondBuckets),
        ("userRecordsPerKinesisRecordSum", "histogram_vec", ["stream"], sizeByteBuckets),
        ("kinesisRecordsPerPutRecordsRequestSum", "histogram_vec", ["stream"], sizeByteBuckets) ] ∧
    (findByID "kinesisRecordsPutCnt").map (fun d => d.«Type») = some "counter_vec" ∧
    (findByID "retriesPerRecordSum").map (fun d => d.Buckets) = some [] := by
  refine ⟨rfl, rfl, rfl⟩

/-- C7: constructing the catalog twice yields element-wise identical
descriptor sequences: at every position the two runs agree on id, name,
description, kind, label names and bucket boundaries. -/
theorem mkCatalog_idempotent :
    List.Forall₂
      (fun a b : metric =>
        a.ID = b.ID ∧ a.Name = b.Name ∧ a.Description = b.Description ∧
        a.«Type» = b.«Type» ∧ a.Args = b.Args ∧ a.Buckets = b.Buckets)
      (mkCatalog ()) (mkCatalog ()) :=
  List.forall₂_same.mpr (fun _ _ => ⟨rfl, rfl, rfl, rfl, rfl, rfl⟩)

/-- C2: for every initial registry state — hence for every outcome of
the individual registrations, success or failure — the handle returned
by `getMetrics` has every one of its eleven fields populated (non-nil),
and each field holds exactly the collector the factory produced for the
catalog descriptor with that field's id. -/
theorem getMetrics_handle_fully_populated :
    ∀ registry0 : List Collector,
      (((getMetrics registry0).p.userRecordsPutCnt).isSome = true ∧
        (getMetrics registry0).p.userRecordsPutCnt =
          (findByID "userRecordsPutCnt").bind (fun d => newMetric d systemName)) ∧
      (((getMetrics registry0).p.userRecordsDataPutSz).isSome = true ∧
        (getMetrics registry0).p.userRecordsDataPutSz =
          (findByID "userRecordsDataPutSz").bind (fun d => newMetric d systemName)) ∧
      (((getMetrics registry0).p.kinesisRecordsPutCnt).isSome = true ∧
        (getMetrics registry0).p.kinesisRecordsPutCnt =
          (findByID "kinesisRecordsPutCnt").bind (fun d => newMetric d systemName)) ∧
      (((getMetrics registry0).p.kinesisRecordsDataPutSz).isSome = true ∧
        (getMetrics registry0).p.kinesisRecordsDataPutSz =
          (findByID "kinesisRecordsDataPutSz").bind (fun d => newMetric d systemName)) ∧
      (((getMetrics registry0).p.errorsByCodeCnt).isSome = true ∧
        (getMetrics registry0).p.errorsByCodeCnt =
          (findByID "errorsByCodeCnt").bind (fun d => newMetric d systemName)) ∧
      (((getMetrics registry0).p.allErrorsCnt).isSome = true ∧
        (getMetrics registry0).p.allErrorsCnt =
          (findByID "allErrorsCnt").bind (fun d => newMetric d systemName)) ∧
      (((getMetrics registry0).p.retriesPerRecordSum).isSome = true ∧
        (getMetrics registry0).p.retriesPerRecordSum =
          (findByID "retriesPerRecordSum").bind (fun d => newMetric d systemName)) ∧
      (((getMetrics registry0).p.bufferingTimeDur).isSome = true ∧
        (getMetrics registry0).p.bufferingTimeDur =
          (findByID "bufferingTimeDur").bind (fun d => newMetric d systemName)) ∧
      (((getMetrics registry0).p.requestTimeDur).isSome = true ∧
        (getMetrics registry0).p.requestTimeDur =
          (findByID "requestTimeDur").bind (fun d => newMetric d systemName)) ∧
      (((getMetrics registry0).p.userRecordsPerKinesisRecordSum).isSome = true ∧
        (getMetrics registry0).p.userRecordsPerKinesisRecordSum =
          (findByID "userRecordsPerKinesisRecordSum").bind (fun d => newMetric d systemName)) ∧
      (((getMetrics registry0).p.kinesisRecordsPerPutRecordsRequestSum).isSome = true ∧
        (getMetrics registry0).p.kinesisRecordsPerPutRecordsRequestSum =
          (findByID "kinesisRecordsPerPutRecordsRequestSum").bind (fun d => newMetric d systemName)) :=
  fun _ =>
    ⟨⟨rfl, rfl⟩, ⟨rfl, rfl⟩, ⟨rfl, rfl⟩, ⟨rfl, rfl⟩, ⟨rfl, rfl⟩, ⟨rfl, rfl⟩,
      ⟨rfl, rfl⟩, ⟨rfl, rfl⟩, ⟨rfl, rfl⟩, ⟨rfl, rfl⟩, ⟨rfl, rfl⟩⟩

/-- C3: a first run against an empty registry logs nothing; a second run
against the resulting registry does not fail, calls the logger's Error
method exactly once per metric — with that metric's name and the
underlying cause — and still returns a fully populated handle. -/
theorem getMetrics_rerun_logs_one_conflict_per_metric :
    (getMetrics []).logs = [] ∧
    (getMetrics (getMetrics []).registry).logs =
      [ ("user_records_put_total could not be registered in Prometheus",
          "duplicate metrics collector registration attempted"),
        ("user_records_data_put_bytes could not be registered in Prometheus",
          "duplicate metrics collector registration attempted"),
        ("kinesis_records_put_total could not be registered in Prometheus",
          "duplicate metrics collector registration attempted"),
        ("kinesis_records_data_put_bytes could not be registered in Prometheus",
          "duplicate metrics collector registration attempted"),
        ("errors_by_code_total could not be registered in Prometheus",
          "duplicate metrics collector registration attempted"),
        ("errors_total could not be registered in Prometheus",
          "duplicate metrics collector registration attempted"),
        ("retries_per_record could not be registered in Prometheus",
          "duplicate metrics collector registration attempted"),
        ("buffering_time_milliseconds could not be registered in Prometheus",
          "duplicate metrics collector registration attempted"),
        ("request_time_milliseconds could not be registered in Prometheus",
          "duplicate metrics collector registration attempted"),
        ("user_records_per_kinesis_record could not be registered in Prometheus",
          "duplicate metrics collector registration attempted"),
        ("kinesis_records_per_put_records_request could not be registered in Prometheus",
          "duplicate metrics collector registration attempted") ] ∧
    (getMetrics (getMetrics []).registry).logs.length = metricList.length ∧
    ((getMetrics (getMetrics []).registry).p.userRecordsPutCnt).isSome = true ∧
    ((getMetrics (getMetrics []).registry).p.userRecordsDataPutSz).isSome = true ∧
    ((getMetrics (getMetrics []).registry).p.kinesisRecordsPutCnt).isSome = true ∧
    ((getMetrics (getMetrics []).registry).p.kinesisRecordsDataPutSz).isSome = true ∧
    ((getMetrics (getMetrics []).registry).p.errorsByCodeCnt).isSome = true ∧
    ((getMetrics (getMetrics []).registry).p.allErrorsCnt).isSome = true ∧
    ((getMetrics (getMetrics []).registry).p.retriesPerRecordSum).isSome = true ∧
    ((getMetrics (getMetrics []).registry).p.bufferingTimeDur).isSome = true ∧
    ((getMetrics (getMetrics []).registry).p.requestTimeDur).isSome = true ∧
    ((getMetrics (getMetrics []).registry).p.userRecordsPerKinesisRecordSum).isSome = true ∧
    ((getMetrics (getMetrics []).registry).p.kinesisRecordsPerPutRecordsRequestSum).isSome = true := by
  refine ⟨rfl, ?_, rfl, rfl, rfl, rfl, rfl, rfl, rfl, rfl, rfl, rfl, rfl, rfl⟩
  rfl

/-- C8: every collector the pipeline hands to the registry is
constructed with the fixed `systemName` subsystem constant: the factory
output for every catalog descriptor carries it, and after a run from an
empty registry all eleven registered collectors carry it. -/
theorem collectors_built_with_systemName :
    (metricList.all fun d =>
      match newMetric d systemName with
      | some c => collectorSubsystem c == systemName
      | none => false) = true ∧
    ((getMetrics []).registry.all fun c => collectorSubsystem c == systemName) = true ∧
    (getMetrics []).registry.length = metricList.length := by
  refine ⟨rfl, rfl, rfl⟩

/-- A descriptor whose `Type` is neither "counter_vec" nor
"histogram_vec": the kind the catalog never uses, exercising the
missing default branch of the `switch` in `newMetric`. -/
def unknownKindMetric : metric :=
  { ID := "badKind"
  , Name := "bad_kind_total"
  , Description := "descriptor with an unknown kind"
  , Args := ["stream"]
  , «Type» := "gauge_vec" }

/-- C1 counterexample: for a descriptor of unknown kind, `newMetric`
does not fail at construction time — its `switch` has no default
branch, so it silently returns the zero value, a nil collector
(`none`): exactly the silent inert outcome the claim rules out. -/
theorem newMetric_unknown_kind_counterexample :
    newMetric unknownKindMetric systemName = none := rfl

/-- C1 (amended): for every descriptor whose kind is neither
"counter_vec" nor "histogram_vec", `newMetric` silently returns a nil
collector (`none`); no fatal assertion or construction-time error is
raised — a failure would only surface downstream when the nil collector
is used. -/
theorem newMetric_unknown_kind_silent_nil :
    ∀ (m : metric) (s : String),
      m.«Type» ≠ "counter_vec" → m.«Type» ≠ "histogram_vec" →
      newMetric m s = none := by
  intro m s h1 h2
  unfold newMetric
  split <;> simp_all

/-- C1 witness: the amended statement at the concrete unknown-kind
descriptor. -/
theorem newMetric_unknown_kind_silent_nil_witness :
    unknownKindMetric.«Type» ≠ "counter_vec" ∧
    unknownKindMetric.«Type» ≠ "histogram_vec" ∧
    newMetric unknownKindMetric systemName = none :=
  ⟨by decide, by decide,
    newMetric_unknown_kind_silent_nil unknownKindMetric systemName
      (by decide) (by decide)⟩

/-- C4: the factory output for every distribution descriptor: when the
descriptor declares a non-empty bucket sequence, the constructed
collector carries exactly that sequence, in order; when it declares
none, the collector is constructed with its buckets field unset, so the
runtime default bucket set is in effect. -/
theorem newMetric_histogram_buckets :
    ∀ (m : metric) (s : String), m.«Type» = "histogram_vec" →
      ∃ c, newMetric m s = some c ∧
        (0 < m.Buckets.length → collectorBuckets c = m.Buckets) ∧
        (m.Buckets = [] →
          collectorBuckets c = [] ∧
          effectiveBuckets c = prometheusDefBuckets) := by
  intro m s h
  refine ⟨Collector.histogramVec s m.Name m.Description
      (if 0 < m.Buckets.length then m.Buckets else []) m.Args, ?_, ?_, ?_⟩
  · unfold newMetric
    rw [h]
    rfl
  · intro hb
    simp [collectorBuckets, hb]
  · intro hb
    simp [collectorBuckets, effectiveBuckets, hb]

/-- The `bufferingTimeDur` descriptor, restated for the C4 witness. -/
def bufferingTimeDurDescr : metric :=
  { ID := "bufferingTimeDur"
  , Name := "buffering_time_milliseconds"
  , Description := "The time between a user record arriving at the KPL and leaving for the backend."
  , Args := ["stream"]
  , «Type» := "histogram_vec"
  , Buckets := timeMillisecondBuckets }

/-- C4 witness: the theorem applied at the buffering-time descriptor. -/
theorem newMetric_histogram_buckets_witness :
    bufferingTimeDurDescr.«Type» = "histogram_vec" ∧
    ∃ c, newMetric bufferingTimeDurDescr systemName = some c ∧
      (0 < bufferingTimeDurDescr.Buckets.length →
        collectorBuckets c = bufferingTimeDurDescr.Buckets) ∧
      (bufferingTimeDurDescr.Buckets = [] →
        collectorBuckets c = [] ∧
        effectiveBuckets c = prometheusDefBuckets) :=
  ⟨rfl, newMetric_histogram_buckets bufferingTimeDurDescr systemName rfl⟩

/-- C9: for a counter descriptor the factory ignores the `Buckets`
field entirely: replacing it by any other value yields the identical
collector. -/
theorem newMetric_counter_ignores_buckets :
    ∀ (m : metric) (b : List ℚ) (s : String), m.«Type» = "counter_vec" →
      newMetric { m with Buckets := b } s = newMetric m s := by
  intro m b s h
  unfold newMetric
  rw [show ({ m with Buckets := b } : metric).«Type» = m.«Type» from rfl, h]
  rfl

/-- The `allErrorsCnt` descriptor, restated for the C9 witness. -/
def allErrorsCntDescr : metric :=
  { ID := "allErrorsCnt"
  , Name := "errors_total"
  , Description := "This is triggered by the same errors as Errors by Code, but does not distinguish between types."
  , Args := ["stream"]
  , «Type» := "counter_vec" }

/-- C9 witness: the theorem applied at the all-errors counter with the
time buckets forced into its `Buckets` field. -/
theorem newMetric_counter_ignores_buckets_witness :
    allErrorsCntDescr.«Type» = "counter_vec" ∧
    newMetric { allErrorsCntDescr with Buckets := timeMillisecondBuckets } systemName =
      newMetric allErrorsCntDescr systemName :=
  ⟨rfl, newMetric_counter_ignores_buckets allErrorsCntDescr timeMillisecondBuckets systemName rfl⟩

/-- Backing-array store for the slice-aliasing model of the histogram
branch: the heap of float64 arrays (the two shared bucket constants and
every descriptor's `Buckets` backing array live here). -/
abbrev Store : Type := List (List ℚ)

/-- Dereference a slice: a Go slice is nil (`none`) or a pointer to a
backing array in the store. -/
def readSlice (st : Store) : Option Nat → List ℚ
  | none => []
  | some i => st.getD i []

/-- Heap model of metrics.go lines 200–207: `opts.Buckets` starts as a
nil slice; when `len(m.Buckets) > 0` the code runs
`opts.Buckets = append(opts.Buckets, m.Buckets...)`, and Go `append` on
a nil base allocates a fresh backing array and copies the elements into
it, so the options slice points at a new array — never at the
descriptor's. `bucketsRef` is the descriptor's `Buckets` slice; the
result is the extended store and the options slice. -/
def buildHistogramOptsBuckets (st : Store) (bucketsRef : Option Nat) :
    Store × Option Nat :=
  let v := readSlice st bucketsRef
  if 0 < v.length then (st ++ [v], some st.length) else (st, none)

/-- C10: collector construction never mutates the descriptor: for any
store and any valid descriptor-buckets pointer, building the histogram
options (i) leaves every existing backing array — the shared bucket
constants and every descriptor's `Buckets` — unchanged, (ii) yields an
options slice that never aliases the descriptor's slice, and (iii) in
the non-empty case copies the boundary values verbatim into the fresh
array. -/
theorem newMetric_no_mutation_fresh_buckets :
    ∀ (st : Store) (i : Nat), i < st.length →
      (∀ j, j < st.length →
        (buildHistogramOptsBuckets st (some i)).1.getD j [] = st.getD j []) ∧
      (buildHistogramOptsBuckets st (some i)).2 ≠ some i ∧
      (0 < (readSlice st (some i)).length →
        readSlice (buildHistogramOptsBuckets st (some i)).1
            (buildHistogramOptsBuckets st (some i)).2 =
          readSlice st (some i)) := by
  intro st i hi
  simp only [buildHistogramOptsBuckets]
  by_cases h0 : 0 < (readSlice st (some i)).length
  · rw [if_pos h0]
    refine ⟨?_, ?_, ?_⟩
    · intro j hj
      exact List.getD_append st [readSlice st (some i)] [] j hj
    · intro hEq
      have : st.length = i := Option.some.inj hEq
      omega
    · intro _
      simp only [readSlice]
      rw [List.getD_append_right st [List.getD st i []] [] st.length
        (Nat.le_refl _)]
      simp
  · rw [if_neg h0]
    exact ⟨fun j _ => rfl, fun hEq => Option.noConfusion hEq,
      fun h => absurd h h0⟩

/-- C10 witness: the theorem applied to a one-array store holding the
time-bucket constant, with the descriptor's slice pointing at it. -/
theorem newMetric_no_mutation_fresh_buckets_witness :
    (0 : Nat) < ([timeMillisecondBuckets] : Store).length ∧
    ((∀ j, j < ([timeMillisecondBuckets] : Store).length →
        (buildHistogramOptsBuckets [timeMillisecondBuckets] (some 0)).1.getD j [] =
          ([timeMillisecondBuckets] : Store).getD j []) ∧
      (buildHistogramOptsBuckets [timeMillisecondBuckets] (some 0)).2 ≠ some 0 ∧
      (0 < (readSlice [timeMillisecondBuckets] (some 0)).length →
        readSlice (buildHistogramOptsBuckets [timeMillisecondBuckets] (some 0)).1
            (buildHistogramOptsBuckets [timeMillisecondBuckets] (some 0)).2 =
          readSlice [timeMillisecondBuckets] (some 0))) :=
  ⟨Nat.zero_lt_one,
    newMetric_no_mutation_fresh_buckets [timeMillisecondBuckets] 0 Nat.zero_lt_one⟩
